import Mathlib

/-!
Verification of the status-evaluation engine of `check_ethernet`
(`src/main.rs`): the data model (`Configuration`, `InterfaceState`,
`NagiosStatus`), the evaluator `NagiosStatus::new`, the reporter
`NagiosStatus::print`, and the fact reader `InterfaceState::new`.
Rust `i32` values are modelled as `Int` (no arithmetic in the program can
overflow: values are only compared), `u32` bit masks as `Nat`, `Vec<String>`
as `List String`.
-/

/-- Exit code constant `STATE_OK` from `src/main.rs`. -/
def STATE_OK : Int := 0

/-- Exit code constant `STATE_WARNING` from `src/main.rs`. -/
def STATE_WARNING : Int := 1

/-- Exit code constant `STATE_CRITICAL` from `src/main.rs`. -/
def STATE_CRITICAL : Int := 2

/-- Exit code constant `STATE_UNKNOWN` from `src/main.rs`. -/
def STATE_UNKNOWN : Int := 3

/-- Address-family bit `ADDR_IPV4` from `src/main.rs`. -/
def ADDR_IPV4 : Nat := 0x01

/-- Address-family bit `ADDR_IPV6` from `src/main.rs`. -/
def ADDR_IPV6 : Nat := 0x02

/-- The `Configuration` struct: operator expectations.
`mtu` and `speed` use non-positive sentinels for "do not check";
`address_type` is the bit set built from `ADDR_IPV4` / `ADDR_IPV6`. -/
structure Configuration where
  interface : String
  mtu : Int
  speed : Int
  duplex : String
  report_critical : Bool
  address_type : Nat
deriving DecidableEq

/-- An assigned network prefix (`ipnetwork::IpNetwork`): an IPv4 or IPv6
address (as a machine integer below 2^32 resp. 2^128) plus a prefix
length.  Only the address part is inspected by the program. -/
inductive IpNetwork where
  | V4 (ip : Nat) (prefixLen : Nat)
  | V6 (ip : Nat) (prefixLen : Nat)
deriving DecidableEq

/-- The `InterfaceState` struct: observed facts about the interface. -/
structure InterfaceState where
  present : Bool
  speed : Int
  mtu : Int
  operstate : String
  duplex : String
  ips : List IpNetwork
deriving DecidableEq

/-- The `NagiosStatus` struct: four severity buckets of messages, each a
`Vec<String>` filled by `push` in evaluation order. -/
structure NagiosStatus where
  critical : List String
  warning : List String
  ok : List String
  unknown : List String
deriving DecidableEq

/-- Componentwise concatenation of bucket quadruples.  Successive `push`
calls of the Rust code append to the end of each bucket, so the buckets
produced by a sequence of checks are the concatenation, check by check,
of each check's contribution. -/
def NagiosStatus.append (a b : NagiosStatus) : NagiosStatus :=
  ⟨a.critical ++ b.critical, a.warning ++ b.warning,
   a.ok ++ b.ok, a.unknown ++ b.unknown⟩

/-- The empty bucket quadruple (a check that pushes nothing). -/
def emptyStatus : NagiosStatus := ⟨[], [], [], []⟩

/-- `ipnetwork::Ipv4Network::contains` for the literal `169.254.0.0/16`:
mask the address with `0xFFFF0000` and compare with `169.254.0.0`. -/
def isLinkLocalV4 (ip : Nat) : Bool := ip &&& 0xFFFF0000 == 0xA9FE0000

/-- `ipnetwork::Ipv6Network::contains` for the literal `fe80::/10`:
mask the address with the top-10-bit mask and compare with `fe80::`. -/
def isLinkLocalV6 (ip : Nat) : Bool :=
  ip &&& (0x3FF <<< 118) == 0x3FA <<< 118

/-- The `link_local_4` counter of the address loop in `NagiosStatus::new`. -/
def ll4Count (ips : List IpNetwork) : Nat :=
  ips.countP fun n => match n with
    | IpNetwork.V4 ip _ => isLinkLocalV4 ip
    | IpNetwork.V6 _ _ => false

/-- The `non_link_local_4` counter of the address loop. -/
def nll4Count (ips : List IpNetwork) : Nat :=
  ips.countP fun n => match n with
    | IpNetwork.V4 ip _ => !isLinkLocalV4 ip
    | IpNetwork.V6 _ _ => false

/-- The `link_local_6` counter of the address loop. -/
def ll6Count (ips : List IpNetwork) : Nat :=
  ips.countP fun n => match n with
    | IpNetwork.V4 _ _ => false
    | IpNetwork.V6 ip _ => isLinkLocalV6 ip

/-- The `non_link_local_6` counter of the address loop. -/
def nll6Count (ips : List IpNetwork) : Nat :=
  ips.countP fun n => match n with
    | IpNetwork.V4 _ _ => false
    | IpNetwork.V6 ip _ => !isLinkLocalV6 ip

/-- The `link_local` total: per-family counters added in when the
corresponding bit of `address_type` is set. -/
def linkLocalCount (cfg : Configuration) (ifs : InterfaceState) : Nat :=
  (if cfg.address_type &&& ADDR_IPV4 = ADDR_IPV4 then ll4Count ifs.ips else 0) +
  (if cfg.address_type &&& ADDR_IPV6 = ADDR_IPV6 then ll6Count ifs.ips else 0)

/-- The `non_link_local` total, analogous to `linkLocalCount`. -/
def nonLinkLocalCount (cfg : Configuration) (ifs : InterfaceState) : Nat :=
  (if cfg.address_type &&& ADDR_IPV4 = ADDR_IPV4 then nll4Count ifs.ips else 0) +
  (if cfg.address_type &&& ADDR_IPV6 = ADDR_IPV6 then nll6Count ifs.ips else 0)

/-- The `format!` string of the speed check's "greater than" branch. -/
def speedGreaterMsg (negotiated requested : Int) : String :=
  "Negotiated interface speed (" ++ toString negotiated ++
  " MBit/s) is greater than requested interface speed (" ++
  toString requested ++ " MBit/s)"

/-- The `format!` string of the speed check's "below" branch. -/
def speedBelowMsg (negotiated requested : Int) : String :=
  "Negotiated interface speed (" ++ toString negotiated ++
  " MBit/s) is below requested interface speed (" ++
  toString requested ++ " MBit/s)"

/-- The `format!` string of the speed check's "equal" branch. -/
def speedOkMsg (negotiated : Int) : String :=
  "Negotiated interface speed is " ++ toString negotiated ++ " MBit/s"

/-- The `format!` string of the duplex check's unknown-mode branch. -/
def duplexUnknownMsg (negotiated : String) : String :=
  "Unknown duplex mode " ++ negotiated

/-- The `format!` string of the duplex check's mismatch branch. -/
def duplexMismatchMsg (negotiated requested : String) : String :=
  "Negotiated duplex mode is " ++ negotiated ++ " instead of " ++ requested

/-- The `format!` string of the duplex check's match branch. -/
def duplexOkMsg (negotiated : String) : String :=
  "Negotiated duplex mode is " ++ negotiated

/-- The `format!` string of the MTU check's mismatch branch. -/
def mtuMismatchMsg (observed requested : Int) : String :=
  "MTU size of " ++ toString observed ++
  " does not match requested MTU size of " ++ toString requested

/-- The `format!` string of the MTU check's match branch. -/
def mtuOkMsg (observed : Int) : String :=
  "MTU size is " ++ toString observed

/-- Contribution of the negotiated-speed sub-check (`src/main.rs`
lines 83-94): gated on `cfg.speed > 0`; greater pushes a warning, below
pushes critical or warning depending on `report_critical`, equal pushes ok. -/
def speedPart (cfg : Configuration) (ifs : InterfaceState) : NagiosStatus :=
  if cfg.speed > 0 then
    if ifs.speed > cfg.speed then
      ⟨[], [speedGreaterMsg ifs.speed cfg.speed], [], []⟩
    else if ifs.speed < cfg.speed then
      if cfg.report_critical then
        ⟨[speedBelowMsg ifs.speed cfg.speed], [], [], []⟩
      else
        ⟨[], [speedBelowMsg ifs.speed cfg.speed], [], []⟩
    else
      ⟨[], [], [speedOkMsg ifs.speed], []⟩
  else emptyStatus

/-- Contribution of the negotiated-duplex sub-check (`src/main.rs`
lines 96-107), gated on the same `cfg.speed > 0` condition. -/
def duplexPart (cfg : Configuration) (ifs : InterfaceState) : NagiosStatus :=
  if cfg.speed > 0 then
    if ifs.duplex ≠ "half" ∧ ifs.duplex ≠ "full" then
      ⟨[], [], [], [duplexUnknownMsg ifs.duplex]⟩
    else if ifs.duplex ≠ cfg.duplex then
      if cfg.report_critical then
        ⟨[duplexMismatchMsg ifs.duplex cfg.duplex], [], [], []⟩
      else
        ⟨[], [duplexMismatchMsg ifs.duplex cfg.duplex], [], []⟩
    else
      ⟨[], [], [duplexOkMsg ifs.duplex], []⟩
  else emptyStatus

/-- Contribution of the MTU check (`src/main.rs` lines 110-121). -/
def mtuPart (cfg : Configuration) (ifs : InterfaceState) : NagiosStatus :=
  if cfg.mtu > 0 then
    if ifs.mtu ≠ cfg.mtu then
      if cfg.report_critical then
        ⟨[mtuMismatchMsg ifs.mtu cfg.mtu], [], [], []⟩
      else
        ⟨[], [mtuMismatchMsg ifs.mtu cfg.mtu], [], []⟩
    else
      ⟨[], [], [mtuOkMsg ifs.mtu], []⟩
  else emptyStatus

/-- Contribution of the assigned-address check (`src/main.rs`
lines 123-164): count link-local and non-link-local addresses of the
selected families and apply the trichotomy of lines 154-163. -/
def addrPart (cfg : Configuration) (ifs : InterfaceState) : NagiosStatus :=
  if cfg.address_type ≠ 0 then
    if nonLinkLocalCount cfg ifs = 0 ∧ linkLocalCount cfg ifs = 0 then
      ⟨["No IP address assigned"], [], [], []⟩
    else if nonLinkLocalCount cfg ifs = 0 ∧ linkLocalCount cfg ifs > 0 then
      ⟨["Only link local address(es) are assigned"], [], [], []⟩
    else
      ⟨[], [], ["Non link local address(es) assigned"], []⟩
  else emptyStatus

/-- `NagiosStatus::new` (`src/main.rs` lines 47-167).  The three
short-circuits are the three early `return` statements; on the `"up"`
path the checks run in order (speed, duplex, MTU, address) and each push
appends to the end of its bucket, so the buckets are the concatenations
of the per-check contributions in that order. -/
def NagiosStatus.new (cfg : Configuration) (ifs : InterfaceState) : NagiosStatus :=
  if ifs.present = false then
    ⟨["Interface is not present"], [], [], []⟩
  else if ifs.operstate = "down" then
    ⟨["Interface is DOWN"], [], [], []⟩
  else if ifs.operstate = "up" then
    NagiosStatus.append ⟨[], [], ["Interface is up"], []⟩
      (NagiosStatus.append (speedPart cfg ifs)
        (NagiosStatus.append (duplexPart cfg ifs)
          (NagiosStatus.append (mtuPart cfg ifs) (addrPart cfg ifs))))
  else
    ⟨[], [], [], ["Interface is " ++ ifs.operstate]⟩

/-- Rust `Vec::join(", ")`: interleave the separator between elements. -/
def joinSep (sep : String) : List String → String
  | [] => ""
  | [x] => x
  | x :: y :: xs => x ++ sep ++ joinSep sep (y :: xs)

/-- `NagiosStatus::print` (`src/main.rs` lines 169-189), modelled as the
pair (line written to stdout if any, returned exit code). -/
def NagiosStatus.print (s : NagiosStatus) : Option String × Int :=
  if s.unknown.length > 0 then (some (joinSep ", " s.unknown), STATE_UNKNOWN)
  else if s.critical.length > 0 then (some (joinSep ", " s.critical), STATE_CRITICAL)
  else if s.warning.length > 0 then (some (joinSep ", " s.warning), STATE_WARNING)
  else if s.ok.length > 0 then (some (joinSep ", " s.ok), STATE_OK)
  else (none, STATE_UNKNOWN)

/-- Total number of messages over the four buckets. -/
def totalMsgs (s : NagiosStatus) : Nat :=
  s.unknown.length + s.critical.length + s.warning.length + s.ok.length

/-- Rust `str::trim` on the character list: drop whitespace at both ends. -/
def trimChars (cs : List Char) : List Char :=
  ((cs.dropWhile Char.isWhitespace).reverse.dropWhile Char.isWhitespace).reverse

/-- Rust `str::trim`. -/
def strTrim (s : String) : String := ⟨trimChars s.data⟩

/-- Digit-sequence parse: all characters are ASCII digits and there is at
least one. -/
def parseDigits (cs : List Char) : Option Nat :=
  if cs ≠ [] ∧ cs.all Char.isDigit then
    some (cs.foldl (fun a c => a * 10 + (c.toNat - 48)) 0)
  else none

/-- Rust `str::parse::<i32>`: optional sign, then ASCII digits, value
within the `i32` range. -/
def parseI32 (s : String) : Option Int :=
  match s.data with
  | '+' :: rest =>
    match parseDigits rest with
    | some n => if n ≤ 2147483647 then some (Int.ofNat n) else none
    | none => none
  | '-' :: rest =>
    match parseDigits rest with
    | some n => if n ≤ 2147483648 then some (-(Int.ofNat n)) else none
    | none => none
  | cs =>
    match parseDigits cs with
    | some n => if n ≤ 2147483647 then some (Int.ofNat n) else none
    | none => none

/-- The filesystem and address-enumeration environment seen by
`InterfaceState::new` for the configured interface: the contents of the
four sysfs attribute files (`none` = the read fails) and the address
list found by the `datalink::interfaces()` loop (empty if the interface
is not enumerated). -/
structure SysfsEnv where
  operstate_raw : Option String
  duplex_raw : Option String
  mtu_raw : Option String
  speed_raw : Option String
  ips : List IpNetwork
deriving DecidableEq

/-- `InterfaceState::new` (`src/main.rs` lines 193-255) over a `SysfsEnv`:
each failed attribute read returns `Ok` with the fields obtained so far
(`present = false`, numeric sentinels `-1`, state and duplex `"unknown"`
until read); a text attribute that does not parse as an integer is a
fatal `Err`; `present` becomes `true` only after all four attributes are
obtained. -/
def InterfaceState.new (env : SysfsEnv) : Except String InterfaceState :=
  match env.operstate_raw with
  | none => Except.ok ⟨false, -1, -1, "unknown", "unknown", env.ips⟩
  | some so =>
    let operstate := strTrim so
    match env.duplex_raw with
    | none => Except.ok ⟨false, -1, -1, operstate, "unknown", env.ips⟩
    | some sd =>
      let duplex := strTrim sd
      match env.mtu_raw with
      | none => Except.ok ⟨false, -1, -1, operstate, duplex, env.ips⟩
      | some sm =>
        let raw_mtu := strTrim sm
        match parseI32 (strTrim raw_mtu) with
        | none => Except.error "Can\x27t convert reported MTU to an integer"
        | some mtu =>
          match env.speed_raw with
          | none => Except.ok ⟨false, -1, mtu, operstate, duplex, env.ips⟩
          | some ss =>
            let raw_speed := strTrim ss
            match parseI32 raw_speed with
            | none => Except.error "Can\x27t convert reported link speed to an integer"
            | some speed =>
              Except.ok ⟨true, speed, mtu, operstate, duplex, env.ips⟩

/-- The tail of `main` (`src/main.rs` lines 401-408): a fact-reader error
is written to stderr and the process exits `STATE_UNKNOWN` (nothing on
stdout); otherwise the evaluator result is printed. -/
def runCheck (cfg : Configuration) (env : SysfsEnv) : Option String × Int :=
  match InterfaceState.new env with
  | Except.error _ => (none, STATE_UNKNOWN)
  | Except.ok ifs => (NagiosStatus.new cfg ifs).print

/-! ## Helper lemmas about the evaluator's structure -/

/-- On the `"up"` path the evaluator result is the concatenation of the
base ok message and the four check contributions. -/
theorem new_up (cfg : Configuration) (ifs : InterfaceState)
    (hp : ifs.present = true) (hu : ifs.operstate = "up") :
    NagiosStatus.new cfg ifs =
      NagiosStatus.append ⟨[], [], ["Interface is up"], []⟩
        (NagiosStatus.append (speedPart cfg ifs)
          (NagiosStatus.append (duplexPart cfg ifs)
            (NagiosStatus.append (mtuPart cfg ifs) (addrPart cfg ifs)))) := by
  simp [NagiosStatus.new, hp, hu]

/-- Critical bucket of the `"up"` path. -/
theorem new_up_critical (cfg : Configuration) (ifs : InterfaceState)
    (hp : ifs.present = true) (hu : ifs.operstate = "up") :
    (NagiosStatus.new cfg ifs).critical =
      (speedPart cfg ifs).critical ++ ((duplexPart cfg ifs).critical ++
        ((mtuPart cfg ifs).critical ++ (addrPart cfg ifs).critical)) := by
  rw [new_up cfg ifs hp hu]; rfl

/-- Warning bucket of the `"up"` path. -/
theorem new_up_warning (cfg : Configuration) (ifs : InterfaceState)
    (hp : ifs.present = true) (hu : ifs.operstate = "up") :
    (NagiosStatus.new cfg ifs).warning =
      (speedPart cfg ifs).warning ++ ((duplexPart cfg ifs).warning ++
        ((mtuPart cfg ifs).warning ++ (addrPart cfg ifs).warning)) := by
  rw [new_up cfg ifs hp hu]; rfl

/-- Ok bucket of the `"up"` path. -/
theorem new_up_ok (cfg : Configuration) (ifs : InterfaceState)
    (hp : ifs.present = true) (hu : ifs.operstate = "up") :
    (NagiosStatus.new cfg ifs).ok =
      "Interface is up" :: ((speedPart cfg ifs).ok ++ ((duplexPart cfg ifs).ok ++
        ((mtuPart cfg ifs).ok ++ (addrPart cfg ifs).ok))) := by
  rw [new_up cfg ifs hp hu]; rfl

/-- Unknown bucket of the `"up"` path. -/
theorem new_up_unknown (cfg : Configuration) (ifs : InterfaceState)
    (hp : ifs.present = true) (hu : ifs.operstate = "up") :
    (NagiosStatus.new cfg ifs).unknown =
      (speedPart cfg ifs).unknown ++ ((duplexPart cfg ifs).unknown ++
        ((mtuPart cfg ifs).unknown ++ (addrPart cfg ifs).unknown)) := by
  rw [new_up cfg ifs hp hu]; rfl

/-- `totalMsgs` distributes over `NagiosStatus.append`. -/
theorem totalMsgs_append (a b : NagiosStatus) :
    totalMsgs (NagiosStatus.append a b) = totalMsgs a + totalMsgs b := by
  simp [totalMsgs, NagiosStatus.append]; ring

/-- The speed sub-check contributes exactly one message iff it is enabled. -/
theorem totalMsgs_speedPart (cfg : Configuration) (ifs : InterfaceState) :
    totalMsgs (speedPart cfg ifs) = if cfg.speed > 0 then 1 else 0 := by
  unfold speedPart emptyStatus
  repeat' split
  all_goals rfl

/-- The duplex sub-check contributes exactly one message iff it is enabled. -/
theorem totalMsgs_duplexPart (cfg : Configuration) (ifs : InterfaceState) :
    totalMsgs (duplexPart cfg ifs) = if cfg.speed > 0 then 1 else 0 := by
  unfold duplexPart emptyStatus
  repeat' split
  all_goals rfl

/-- The MTU check contributes exactly one message iff it is enabled. -/
theorem totalMsgs_mtuPart (cfg : Configuration) (ifs : InterfaceState) :
    totalMsgs (mtuPart cfg ifs) = if cfg.mtu > 0 then 1 else 0 := by
  unfold mtuPart emptyStatus
  repeat' split
  all_goals rfl

/-- The address check contributes exactly one message iff it is enabled. -/
theorem totalMsgs_addrPart (cfg : Configuration) (ifs : InterfaceState) :
    totalMsgs (addrPart cfg ifs) = if cfg.address_type ≠ 0 then 1 else 0 := by
  unfold addrPart emptyStatus
  repeat' split
  all_goals rfl

/-- Message count of the evaluator on the `"up"` path. -/
theorem totalMsgs_new_up (cfg : Configuration) (ifs : InterfaceState)
    (hp : ifs.present = true) (hu : ifs.operstate = "up") :
    totalMsgs (NagiosStatus.new cfg ifs) =
      1 + (if cfg.speed > 0 then 2 else 0) + (if cfg.mtu > 0 then 1 else 0) +
        (if cfg.address_type ≠ 0 then 1 else 0) := by
  rw [new_up cfg ifs hp hu, totalMsgs_append, totalMsgs_append, totalMsgs_append,
    totalMsgs_append, totalMsgs_speedPart, totalMsgs_duplexPart, totalMsgs_mtuPart,
    totalMsgs_addrPart]
  have hb : totalMsgs ⟨[], [], ["Interface is up"], []⟩ = 1 := rfl
  rw [hb]
  by_cases h1 : cfg.speed > 0 <;> by_cases h2 : cfg.mtu > 0 <;>
    by_cases h3 : cfg.address_type ≠ 0 <;> simp [h1, h2, h3]

/-! ## Claim theorems -/

/-- Claim C4: for every configuration and every fact record with
`present = false`, the evaluator returns exactly the one critical message
"Interface is not present" with all other buckets empty, independent of
all other fields. -/
theorem presence_short_circuit (cfg : Configuration) (ifs : InterfaceState)
    (hp : ifs.present = false) :
    NagiosStatus.new cfg ifs = ⟨["Interface is not present"], [], [], []⟩ := by
  simp [NagiosStatus.new, hp]

/-- Witness for C4 at a concrete absent interface. -/
theorem presence_short_circuit_witness :
    NagiosStatus.new ⟨"eth0", 1500, 1000, "full", false, 0⟩
        ⟨false, 1000, 1500, "up", "full", []⟩ =
      ⟨["Interface is not present"], [], [], []⟩ :=
  presence_short_circuit _ _ rfl

/-- Claim C5: for every configuration and every fact record with
`present = true` and `operstate = "down"`, the evaluator returns exactly
the one critical message "Interface is DOWN" with all other buckets
empty, regardless of the speed, mtu, duplex and address fields. -/
theorem down_short_circuit (cfg : Configuration) (ifs : InterfaceState)
    (hp : ifs.present = true) (hd : ifs.operstate = "down") :
    NagiosStatus.new cfg ifs = ⟨["Interface is DOWN"], [], [], []⟩ := by
  simp [NagiosStatus.new, hp, hd]

/-- Witness for C5 at a concrete down interface. -/
theorem down_short_circuit_witness :
    NagiosStatus.new ⟨"eth0", 1500, 1000, "full", false, 0⟩
        ⟨true, 1000, 1500, "down", "full", []⟩ =
      ⟨["Interface is DOWN"], [], [], []⟩ :=
  down_short_circuit _ _ rfl rfl

/-- Claim C6: for every configuration and every fact record with
`present = true` and an operational state that is neither `"up"` nor
`"down"`, the evaluator returns exactly one unknown message naming the
state, with all other buckets empty, and the result does not depend on
the speed, mtu, duplex or address fields. -/
theorem unexpected_state_short_circuit (cfg : Configuration) (ifs : InterfaceState)
    (hp : ifs.present = true) (hnu : ifs.operstate ≠ "up") (hnd : ifs.operstate ≠ "down") :
    NagiosStatus.new cfg ifs = ⟨[], [], [], ["Interface is " ++ ifs.operstate]⟩ ∧
    ∀ s m d a, NagiosStatus.new cfg { ifs with speed := s, mtu := m, duplex := d, ips := a } =
      NagiosStatus.new cfg ifs := by
  constructor
  · simp [NagiosStatus.new, hp, hnu, hnd]
  · intro s m d a
    simp [NagiosStatus.new, hp, hnu, hnd]

/-- Witness for C6 at a concrete dormant interface. -/
theorem unexpected_state_short_circuit_witness :
    NagiosStatus.new ⟨"eth0", 1500, 1000, "full", false, 0⟩
        ⟨true, 1000, 1500, "dormant", "full", []⟩ =
      ⟨[], [], [], ["Interface is " ++ "dormant"]⟩ :=
  (unexpected_state_short_circuit _ _ rfl (by decide) (by decide)).1

/-- Claim C3: the reporter picks the first non-empty bucket in the strict
order unknown, critical, warning, ok; prints the winning bucket joined
with ", "; returns exit codes UNKNOWN=3, CRITICAL=2, WARNING=1, OK=0;
and returns UNKNOWN (printing nothing) when all four buckets are empty. -/
theorem reporter_precedence (s : NagiosStatus) :
    (s.unknown ≠ [] → s.print = (some (joinSep ", " s.unknown), 3)) ∧
    (s.unknown = [] → s.critical ≠ [] → s.print = (some (joinSep ", " s.critical), 2)) ∧
    (s.unknown = [] → s.critical = [] → s.warning ≠ [] →
      s.print = (some (joinSep ", " s.warning), 1)) ∧
    (s.unknown = [] → s.critical = [] → s.warning = [] → s.ok ≠ [] →
      s.print = (some (joinSep ", " s.ok), 0)) ∧
    (s.unknown = [] → s.critical = [] → s.warning = [] → s.ok = [] →
      s.print = (none, 3)) := by
  refine ⟨?_, ?_, ?_, ?_, ?_⟩ <;> intros <;>
    simp_all [NagiosStatus.print, List.length_pos, STATE_OK, STATE_WARNING,
      STATE_CRITICAL, STATE_UNKNOWN]

/-- Witness for C3: a non-empty unknown bucket wins over all others. -/
theorem reporter_precedence_witness :
    NagiosStatus.print ⟨["c"], ["w"], ["k"], ["u"]⟩ = (some "u", 3) :=
  (reporter_precedence ⟨["c"], ["w"], ["k"], ["u"]⟩).1 (by decide)

/-- Claim C10: the evaluator always produces at least one message, so the
reporter's all-buckets-empty fallback never fires on evaluator output
(a line is always printed). -/
theorem evaluator_nonempty (cfg : Configuration) (ifs : InterfaceState) :
    0 < totalMsgs (NagiosStatus.new cfg ifs) ∧
      ((NagiosStatus.new cfg ifs).print.1.isSome = true) := by
  have hpos : 0 < totalMsgs (NagiosStatus.new cfg ifs) := by
    cases hpb : ifs.present with
    | false => simp [NagiosStatus.new, hpb, totalMsgs]
    | true =>
      by_cases hd : ifs.operstate = "down"
      · simp [NagiosStatus.new, hpb, hd, totalMsgs]
      · by_cases hu : ifs.operstate = "up"
        · rw [totalMsgs_new_up cfg ifs hpb hu]; omega
        · simp [NagiosStatus.new, hpb, hd, hu, totalMsgs]
  refine ⟨hpos, ?_⟩
  unfold NagiosStatus.print
  repeat' split
  all_goals simp_all [totalMsgs]


/-- Claim C2: with `expected_speed > 0` on a present, up interface, the
speed and duplex sub-checks both run, each contributing exactly one
message (the message-count formula attributes 2 messages to the pair,
besides the base ok message and the optional MTU and address messages);
the speed sub-check warns on greater, escalates or warns on below, and
oks on equal; the duplex sub-check reports unknown modes, escalates or
warns on a mismatch, and oks on a match; with `expected_speed ≤ 0`
neither sub-check emits anything: the result ignores the negotiated
speed and duplex entirely. -/
theorem speed_duplex_step (cfg : Configuration) (ifs : InterfaceState)
    (hp : ifs.present = true) (hu : ifs.operstate = "up") :
    (cfg.speed > 0 →
      ((ifs.speed > cfg.speed →
        speedGreaterMsg ifs.speed cfg.speed ∈ (NagiosStatus.new cfg ifs).warning) ∧
       (ifs.speed < cfg.speed → cfg.report_critical = true →
        speedBelowMsg ifs.speed cfg.speed ∈ (NagiosStatus.new cfg ifs).critical) ∧
       (ifs.speed < cfg.speed → cfg.report_critical = false →
        speedBelowMsg ifs.speed cfg.speed ∈ (NagiosStatus.new cfg ifs).warning) ∧
       (ifs.speed = cfg.speed →
        speedOkMsg ifs.speed ∈ (NagiosStatus.new cfg ifs).ok) ∧
       (ifs.duplex ≠ "half" → ifs.duplex ≠ "full" →
        duplexUnknownMsg ifs.duplex ∈ (NagiosStatus.new cfg ifs).unknown) ∧
       ((ifs.duplex = "half" ∨ ifs.duplex = "full") → ifs.duplex ≠ cfg.duplex →
        cfg.report_critical = true →
        duplexMismatchMsg ifs.duplex cfg.duplex ∈ (NagiosStatus.new cfg ifs).critical) ∧
       ((ifs.duplex = "half" ∨ ifs.duplex = "full") → ifs.duplex ≠ cfg.duplex →
        cfg.report_critical = false →
        duplexMismatchMsg ifs.duplex cfg.duplex ∈ (NagiosStatus.new cfg ifs).warning) ∧
       ((ifs.duplex = "half" ∨ ifs.duplex = "full") → ifs.duplex = cfg.duplex →
        duplexOkMsg ifs.duplex ∈ (NagiosStatus.new cfg ifs).ok))) ∧
    (cfg.speed ≤ 0 → ∀ s d,
      NagiosStatus.new cfg { ifs with speed := s, duplex := d } = NagiosStatus.new cfg ifs) ∧
    totalMsgs (NagiosStatus.new cfg ifs) =
      1 + (if cfg.speed > 0 then 2 else 0) + (if cfg.mtu > 0 then 1 else 0) +
        (if cfg.address_type ≠ 0 then 1 else 0) := by
  refine ⟨fun hs => ⟨?_, ?_, ?_, ?_, ?_, ?_, ?_, ?_⟩, ?_, totalMsgs_new_up cfg ifs hp hu⟩
  · intro hgt
    rw [new_up_warning cfg ifs hp hu]
    have hmem : speedGreaterMsg ifs.speed cfg.speed ∈ (speedPart cfg ifs).warning := by
      simp [speedPart, hs, hgt]
    simp [hmem]
  · intro hlt hrc
    rw [new_up_critical cfg ifs hp hu]
    have hmem : speedBelowMsg ifs.speed cfg.speed ∈ (speedPart cfg ifs).critical := by
      simp [speedPart, hs, hlt, hrc, not_lt_of_gt hlt]
    simp [hmem]
  · intro hlt hrc
    rw [new_up_warning cfg ifs hp hu]
    have hmem : speedBelowMsg ifs.speed cfg.speed ∈ (speedPart cfg ifs).warning := by
      simp [speedPart, hs, hlt, hrc, not_lt_of_gt hlt]
    simp [hmem]
  · intro heq
    rw [new_up_ok cfg ifs hp hu]
    have hmem : speedOkMsg ifs.speed ∈ (speedPart cfg ifs).ok := by
      simp [speedPart, hs, heq]
    simp [hmem]
  · intro hh hf
    rw [new_up_unknown cfg ifs hp hu]
    have hmem : duplexUnknownMsg ifs.duplex ∈ (duplexPart cfg ifs).unknown := by
      simp [duplexPart, hs, hh, hf]
    simp [hmem]
  · intro hk hne hrc
    rw [new_up_critical cfg ifs hp hu]
    have hcond : ¬(ifs.duplex ≠ "half" ∧ ifs.duplex ≠ "full") := by
      rcases hk with h | h <;> simp [h]
    have hmem : duplexMismatchMsg ifs.duplex cfg.duplex ∈ (duplexPart cfg ifs).critical := by
      simp [duplexPart, hs, hcond, hne, hrc]
    simp [hmem]
  · intro hk hne hrc
    rw [new_up_warning cfg ifs hp hu]
    have hcond : ¬(ifs.duplex ≠ "half" ∧ ifs.duplex ≠ "full") := by
      rcases hk with h | h <;> simp [h]
    have hmem : duplexMismatchMsg ifs.duplex cfg.duplex ∈ (duplexPart cfg ifs).warning := by
      simp [duplexPart, hs, hcond, hne, hrc]
    simp [hmem]
  · intro hk heq
    rw [new_up_ok cfg ifs hp hu]
    have hcond2 : ¬(cfg.duplex ≠ "half" ∧ cfg.duplex ≠ "full") := by
      rcases hk with h | h <;> rw [← heq] <;> simp [h]
    have hmem : duplexOkMsg ifs.duplex ∈ (duplexPart cfg ifs).ok := by
      simp [duplexPart, hs, hcond2, heq]
    simp [hmem]
  · intro hle s d
    have hns : ¬ cfg.speed > 0 := not_lt.mpr hle
    rw [new_up cfg { ifs with speed := s, duplex := d } hp hu, new_up cfg ifs hp hu]
    simp only [speedPart, duplexPart, if_neg hns]
    rfl

/-- Witness for C2: a concrete up interface with too-high speed and
mismatched duplex under `escalate_to_critical = false`. -/
theorem speed_duplex_step_witness :
    speedGreaterMsg 2000 1000 ∈
      (NagiosStatus.new ⟨"eth0", 0, 1000, "full", false, 0⟩
        ⟨true, 2000, 1500, "up", "half", []⟩).warning ∧
    duplexMismatchMsg "half" "full" ∈
      (NagiosStatus.new ⟨"eth0", 0, 1000, "full", false, 0⟩
        ⟨true, 2000, 1500, "up", "half", []⟩).warning ∧
    totalMsgs (NagiosStatus.new ⟨"eth0", 0, 1000, "full", false, 0⟩
      ⟨true, 2000, 1500, "up", "half", []⟩) = 3 := by
  have h := speed_duplex_step ⟨"eth0", 0, 1000, "full", false, 0⟩
    ⟨true, 2000, 1500, "up", "half", []⟩ rfl rfl
  exact ⟨(h.1 (by decide)).1 (by decide),
    (h.1 (by decide)).2.2.2.2.2.2.1 (by decide) (by decide) rfl,
    by rw [h.2.2]; decide⟩

/-- Claim C8: a non-positive expected MTU disables the MTU check (the
result is independent of the observed MTU on every path); a positive
expected MTU on a present, up interface yields exactly one MTU message:
escalated or warning on a mismatch, ok on a match. -/
theorem mtu_check_gating (cfg : Configuration) (ifs : InterfaceState) :
    (cfg.mtu ≤ 0 → ∀ m : Int,
      NagiosStatus.new cfg { ifs with mtu := m } = NagiosStatus.new cfg ifs) ∧
    (cfg.mtu > 0 → ifs.present = true → ifs.operstate = "up" →
      (ifs.mtu ≠ cfg.mtu → cfg.report_critical = true →
        mtuMismatchMsg ifs.mtu cfg.mtu ∈ (NagiosStatus.new cfg ifs).critical) ∧
      (ifs.mtu ≠ cfg.mtu → cfg.report_critical = false →
        mtuMismatchMsg ifs.mtu cfg.mtu ∈ (NagiosStatus.new cfg ifs).warning) ∧
      (ifs.mtu = cfg.mtu → mtuOkMsg ifs.mtu ∈ (NagiosStatus.new cfg ifs).ok) ∧
      totalMsgs (NagiosStatus.new cfg ifs) =
        totalMsgs (NagiosStatus.new { cfg with mtu := 0 } ifs) + 1) := by
  constructor
  · intro hle m
    have hnm : ¬ cfg.mtu > 0 := not_lt.mpr hle
    by_cases hpb : ifs.present = false
    · simp [NagiosStatus.new, hpb]
    · have hp2 : ifs.present = true := by revert hpb; cases ifs.present <;> simp
      by_cases hd : ifs.operstate = "down"
      · simp [NagiosStatus.new, hp2, hd]
      · by_cases hu : ifs.operstate = "up"
        · rw [new_up cfg { ifs with mtu := m } hp2 hu, new_up cfg ifs hp2 hu]
          simp only [mtuPart, if_neg hnm]
          rfl
        · simp [NagiosStatus.new, hp2, hd, hu]
  · intro hm hp hu
    refine ⟨?_, ?_, ?_, ?_⟩
    · intro hne hrc
      rw [new_up_critical cfg ifs hp hu]
      have hmem : mtuMismatchMsg ifs.mtu cfg.mtu ∈ (mtuPart cfg ifs).critical := by
        simp [mtuPart, hm, hne, hrc]
      simp [hmem]
    · intro hne hrc
      rw [new_up_warning cfg ifs hp hu]
      have hmem : mtuMismatchMsg ifs.mtu cfg.mtu ∈ (mtuPart cfg ifs).warning := by
        simp [mtuPart, hm, hne, hrc]
      simp [hmem]
    · intro heq
      rw [new_up_ok cfg ifs hp hu]
      have hmem : mtuOkMsg ifs.mtu ∈ (mtuPart cfg ifs).ok := by
        simp [mtuPart, hm, heq]
      simp [hmem]
    · rw [totalMsgs_new_up cfg ifs hp hu, totalMsgs_new_up { cfg with mtu := 0 } ifs hp hu]
      simp [hm]
      omega

/-- Witness for C8: a concrete MTU mismatch reported as a warning. -/
theorem mtu_check_gating_witness :
    mtuMismatchMsg 1400 1500 ∈
      (NagiosStatus.new ⟨"eth0", 1500, 1000, "full", false, 0⟩
        ⟨true, 1000, 1400, "up", "full", []⟩).warning ∧
    totalMsgs (NagiosStatus.new ⟨"eth0", 1500, 1000, "full", false, 0⟩
      ⟨true, 1000, 1400, "up", "full", []⟩) = 4 := by
  have h := (mtu_check_gating ⟨"eth0", 1500, 1000, "full", false, 0⟩
    ⟨true, 1000, 1400, "up", "full", []⟩).2 (by decide) rfl rfl
  exact ⟨h.2.1 (by decide) rfl, by rw [h.2.2.2]; decide⟩


/-- The address check leaves its critical message exactly when no
non-link-local address is in scope. -/
theorem addrPart_critical_length (cfg : Configuration) (ifs : InterfaceState)
    (ha : cfg.address_type ≠ 0) :
    (addrPart cfg ifs).critical.length =
      if nonLinkLocalCount cfg ifs = 0 then 1 else 0 := by
  unfold addrPart
  rw [if_pos ha]
  by_cases hn : nonLinkLocalCount cfg ifs = 0
  · by_cases hl : linkLocalCount cfg ifs = 0
    · simp [hn, hl]
    · simp [hn, hl, Nat.pos_of_ne_zero hl]
  · simp [hn]

/-- The address check leaves its ok message exactly when some
non-link-local address is in scope. -/
theorem addrPart_ok_length (cfg : Configuration) (ifs : InterfaceState)
    (ha : cfg.address_type ≠ 0) :
    (addrPart cfg ifs).ok.length =
      if 0 < nonLinkLocalCount cfg ifs then 1 else 0 := by
  unfold addrPart
  rw [if_pos ha]
  by_cases hn : nonLinkLocalCount cfg ifs = 0
  · by_cases hl : linkLocalCount cfg ifs = 0
    · simp [hn, hl]
    · simp [hn, hl, Nat.pos_of_ne_zero hl]
  · simp [hn, Nat.pos_of_ne_zero hn]

/-- Claim C7: with the address check enabled on a present, up interface,
classifying the in-scope addresses (families selected by `address_type`,
ipv4 link-local `169.254.0.0/16`, ipv6 link-local `fe80::/10`) yields
exactly one message: critical "No IP address assigned" when no in-scope
address exists, critical "Only link local address(es) are assigned" when
at least one exists and all are link-local, and ok otherwise; the
per-bucket and total message counts each grow by exactly one relative to
the same configuration with the address check disabled. -/
theorem address_check_trichotomy (cfg : Configuration) (ifs : InterfaceState)
    (ha : cfg.address_type ≠ 0) (hp : ifs.present = true) (hu : ifs.operstate = "up") :
    (nonLinkLocalCount cfg ifs = 0 → linkLocalCount cfg ifs = 0 →
      "No IP address assigned" ∈ (NagiosStatus.new cfg ifs).critical) ∧
    (nonLinkLocalCount cfg ifs = 0 → 0 < linkLocalCount cfg ifs →
      "Only link local address(es) are assigned" ∈ (NagiosStatus.new cfg ifs).critical) ∧
    (0 < nonLinkLocalCount cfg ifs →
      "Non link local address(es) assigned" ∈ (NagiosStatus.new cfg ifs).ok) ∧
    (NagiosStatus.new cfg ifs).critical.length =
      (NagiosStatus.new { cfg with address_type := 0 } ifs).critical.length +
        (if nonLinkLocalCount cfg ifs = 0 then 1 else 0) ∧
    (NagiosStatus.new cfg ifs).ok.length =
      (NagiosStatus.new { cfg with address_type := 0 } ifs).ok.length +
        (if 0 < nonLinkLocalCount cfg ifs then 1 else 0) ∧
    totalMsgs (NagiosStatus.new cfg ifs) =
      totalMsgs (NagiosStatus.new { cfg with address_type := 0 } ifs) + 1 := by
  have e1 : speedPart { cfg with address_type := 0 } ifs = speedPart cfg ifs := rfl
  have e2 : duplexPart { cfg with address_type := 0 } ifs = duplexPart cfg ifs := rfl
  have e3 : mtuPart { cfg with address_type := 0 } ifs = mtuPart cfg ifs := rfl
  have e4 : addrPart { cfg with address_type := 0 } ifs = emptyStatus := by
    simp [addrPart]
  refine ⟨?_, ?_, ?_, ?_, ?_, ?_⟩
  · intro hn hl
    rw [new_up_critical cfg ifs hp hu]
    have hmem : "No IP address assigned" ∈ (addrPart cfg ifs).critical := by
      simp [addrPart, ha, hn, hl]
    simp [hmem]
  · intro hn hl
    rw [new_up_critical cfg ifs hp hu]
    have hmem : "Only link local address(es) are assigned" ∈ (addrPart cfg ifs).critical := by
      simp [addrPart, ha, hn, hl, Nat.pos_iff_ne_zero.mp hl]
    simp [hmem]
  · intro hn
    rw [new_up_ok cfg ifs hp hu]
    have hmem : "Non link local address(es) assigned" ∈ (addrPart cfg ifs).ok := by
      simp [addrPart, ha, Nat.pos_iff_ne_zero.mp hn]
    simp [hmem]
  · rw [new_up_critical cfg ifs hp hu, new_up_critical { cfg with address_type := 0 } ifs hp hu,
      e1, e2, e3, e4]
    simp only [List.length_append, addrPart_critical_length cfg ifs ha, emptyStatus]
    simp only [List.length_nil]
    omega
  · rw [new_up_ok cfg ifs hp hu, new_up_ok { cfg with address_type := 0 } ifs hp hu,
      e1, e2, e3, e4]
    simp only [List.length_cons, List.length_append, addrPart_ok_length cfg ifs ha, emptyStatus]
    simp only [List.length_nil]
    omega
  · rw [totalMsgs_new_up cfg ifs hp hu, totalMsgs_new_up { cfg with address_type := 0 } ifs hp hu]
    simp [ha]

/-- Witness for C7: a single non-link-local IPv4 address passes the check. -/
theorem address_check_trichotomy_witness :
    "Non link local address(es) assigned" ∈
      (NagiosStatus.new ⟨"eth0", 0, 0, "full", false, 1⟩
        ⟨true, 0, 0, "up", "full", [IpNetwork.V4 0xC0A80101 24]⟩).ok ∧
    totalMsgs (NagiosStatus.new ⟨"eth0", 0, 0, "full", false, 1⟩
      ⟨true, 0, 0, "up", "full", [IpNetwork.V4 0xC0A80101 24]⟩) = 2 := by
  have h := address_check_trichotomy ⟨"eth0", 0, 0, "full", false, 1⟩
    ⟨true, 0, 0, "up", "full", [IpNetwork.V4 0xC0A80101 24]⟩ (by decide) rfl rfl
  exact ⟨h.2.2.1 (by decide), by rw [h.2.2.2.2.2]; decide⟩


/-- When `report_critical` is set, the only message the evaluator can
ever place in the warning bucket is the speed-exceeds-expectation
message. -/
theorem warning_all_greater (cfg : Configuration) (ifs : InterfaceState)
    (hrc : cfg.report_critical = true) :
    ∀ x ∈ (NagiosStatus.new cfg ifs).warning, x = speedGreaterMsg ifs.speed cfg.speed := by
  intro x hx
  by_cases hpb : ifs.present = false
  · simp [NagiosStatus.new, hpb] at hx
  · have hp2 : ifs.present = true := by revert hpb; cases ifs.present <;> simp
    by_cases hd : ifs.operstate = "down"
    · simp [NagiosStatus.new, hp2, hd] at hx
    · by_cases hu : ifs.operstate = "up"
      · rw [new_up_warning cfg ifs hp2 hu] at hx
        have hdw : (duplexPart cfg ifs).warning = [] := by
          unfold duplexPart emptyStatus
          repeat' split
          all_goals simp_all
        have hmw : (mtuPart cfg ifs).warning = [] := by
          unfold mtuPart emptyStatus
          repeat' split
          all_goals simp_all
        have haw : (addrPart cfg ifs).warning = [] := by
          unfold addrPart emptyStatus
          repeat' split
          all_goals simp_all
        rw [hdw, hmw, haw] at hx
        simp only [List.append_nil, List.nil_append] at hx
        revert hx
        unfold speedPart emptyStatus
        repeat' split
        all_goals simp_all
      · simp [NagiosStatus.new, hp2, hd, hu] at hx

/-- Claim C1 counterexample: a negotiated speed above the expectation is
a mismatch reported in the warning bucket with `escalate_to_critical`
off, yet with `escalate_to_critical` on the very same message stays in
the warning bucket and does not move to the critical bucket. -/
theorem escalation_claim_counterexample :
    speedGreaterMsg 2000 1000 ∈
      (NagiosStatus.new ⟨"eth0", 0, 1000, "full", false, 0⟩
        ⟨true, 2000, 1500, "up", "full", []⟩).warning ∧
    speedGreaterMsg 2000 1000 ∉
      (NagiosStatus.new ⟨"eth0", 0, 1000, "full", true, 0⟩
        ⟨true, 2000, 1500, "up", "full", []⟩).critical ∧
    speedGreaterMsg 2000 1000 ∈
      (NagiosStatus.new ⟨"eth0", 0, 1000, "full", true, 0⟩
        ⟨true, 2000, 1500, "up", "full", []⟩).warning := by
  decide

/-- Claim C1 (amended): for every mismatch message in the warning bucket
under `escalate_to_critical = false` other than the
speed-exceeds-expectation message (which stays a warning regardless of
the flag), flipping `escalate_to_critical` to true moves the same
content to the critical bucket and out of the warning bucket; this
covers the below-speed, duplex and MTU mismatches. -/
theorem escalation_law_amended (cfg : Configuration) (ifs : InterfaceState) (m : String)
    (hrc : cfg.report_critical = false)
    (hm : m ∈ (NagiosStatus.new cfg ifs).warning)
    (hne : m ≠ speedGreaterMsg ifs.speed cfg.speed) :
    m ∈ (NagiosStatus.new { cfg with report_critical := true } ifs).critical ∧
    m ∉ (NagiosStatus.new { cfg with report_critical := true } ifs).warning := by
  have hnw : m ∉ (NagiosStatus.new { cfg with report_critical := true } ifs).warning := by
    intro hw
    exact hne (warning_all_greater { cfg with report_critical := true } ifs rfl m hw)
  refine ⟨?_, hnw⟩
  by_cases hpb : ifs.present = false
  · simp [NagiosStatus.new, hpb] at hm
  · have hp2 : ifs.present = true := by revert hpb; cases ifs.present <;> simp
    by_cases hd : ifs.operstate = "down"
    · simp [NagiosStatus.new, hp2, hd] at hm
    · by_cases hu : ifs.operstate = "up"
      swap
      · simp [NagiosStatus.new, hp2, hd, hu] at hm
      · rw [new_up_warning cfg ifs hp2 hu] at hm
        rw [new_up_critical { cfg with report_critical := true } ifs hp2 hu]
        simp only [List.mem_append] at hm
        rcases hm with hsp | hdp | hmp | hap
        · by_cases hs : cfg.speed > 0
          swap
          · simp [speedPart, hs, emptyStatus] at hsp
          · by_cases hgt : ifs.speed > cfg.speed
            · simp [speedPart, hs, hgt] at hsp
              exact absurd hsp hne
            · by_cases hlt : ifs.speed < cfg.speed
              · simp [speedPart, hs, hgt, hlt, hrc] at hsp
                subst hsp
                have hmem : speedBelowMsg ifs.speed cfg.speed ∈
                    (speedPart { cfg with report_critical := true } ifs).critical := by
                  simp [speedPart, hs, hgt, hlt]
                simp [hmem]
              · simp [speedPart, hs, hgt, hlt] at hsp
        · by_cases hs : cfg.speed > 0
          swap
          · simp [duplexPart, hs, emptyStatus] at hdp
          · by_cases hun : ifs.duplex ≠ "half" ∧ ifs.duplex ≠ "full"
            · simp [duplexPart, hs, hun] at hdp
            · by_cases hne2 : ifs.duplex ≠ cfg.duplex
              · simp [duplexPart, hs, hun, hne2, hrc] at hdp
                subst hdp
                have hmem : duplexMismatchMsg ifs.duplex cfg.duplex ∈
                    (duplexPart { cfg with report_critical := true } ifs).critical := by
                  simp [duplexPart, hs, hun, hne2]
                simp [hmem]
              · simp [duplexPart, hs, hun, hne2] at hdp
        · by_cases hmt : cfg.mtu > 0
          swap
          · simp [mtuPart, hmt, emptyStatus] at hmp
          · by_cases hne3 : ifs.mtu ≠ cfg.mtu
            · simp [mtuPart, hmt, hne3, hrc] at hmp
              subst hmp
              have hmem : mtuMismatchMsg ifs.mtu cfg.mtu ∈
                  (mtuPart { cfg with report_critical := true } ifs).critical := by
                simp [mtuPart, hmt, hne3]
              simp [hmem]
            · simp [mtuPart, hmt, hne3] at hmp
        · have haw : (addrPart cfg ifs).warning = [] := by
            unfold addrPart emptyStatus
            repeat' split
            all_goals simp_all
          rw [haw] at hap
          simp at hap

/-- Witness for the amended C1: a below-expectation speed warning is
escalated to critical. -/
theorem escalation_law_amended_witness :
    speedBelowMsg 100 1000 ∈
      (NagiosStatus.new ⟨"eth0", 0, 1000, "full", true, 0⟩
        ⟨true, 100, 1500, "up", "full", []⟩).critical := by
  have h := escalation_law_amended ⟨"eth0", 0, 1000, "full", false, 0⟩
    ⟨true, 100, 1500, "up", "full", []⟩ (speedBelowMsg 100 1000) rfl (by decide) (by decide)
  exact h.1


/-- Claim C9: an unreadable operational-state (or duplex) attribute makes
the fact reader return a successful `present = false` result with the
numeric sentinels `-1`; an attribute that reads as text but fails integer
parsing makes it return an error, on which the process exits
`STATE_UNKNOWN`; and the result carries `present = true` exactly when
operational state, duplex, MTU and speed were all obtained. -/
theorem fact_reader_error_taxonomy (env : SysfsEnv) :
    (env.operstate_raw = none →
      InterfaceState.new env = Except.ok ⟨false, -1, -1, "unknown", "unknown", env.ips⟩) ∧
    (∀ so, env.operstate_raw = some so → env.duplex_raw = none →
      InterfaceState.new env = Except.ok ⟨false, -1, -1, strTrim so, "unknown", env.ips⟩) ∧
    (∀ so sd sm, env.operstate_raw = some so → env.duplex_raw = some sd →
      env.mtu_raw = some sm → parseI32 (strTrim (strTrim sm)) = none →
      InterfaceState.new env = Except.error "Can\x27t convert reported MTU to an integer") ∧
    (∀ so sd sm ss mv, env.operstate_raw = some so → env.duplex_raw = some sd →
      env.mtu_raw = some sm → parseI32 (strTrim (strTrim sm)) = some mv →
      env.speed_raw = some ss → parseI32 (strTrim ss) = none →
      InterfaceState.new env = Except.error "Can\x27t convert reported link speed to an integer") ∧
    (∀ e, InterfaceState.new env = Except.error e →
      ∀ cfg, runCheck cfg env = (none, STATE_UNKNOWN)) ∧
    ((∃ st, InterfaceState.new env = Except.ok st ∧ st.present = true) ↔
      (∃ so sd sm ss, env.operstate_raw = some so ∧ env.duplex_raw = some sd ∧
        env.mtu_raw = some sm ∧ (parseI32 (strTrim (strTrim sm))).isSome = true ∧
        env.speed_raw = some ss ∧ (parseI32 (strTrim ss)).isSome = true)) := by
  refine ⟨?_, ?_, ?_, ?_, ?_, ?_⟩
  · intro h
    simp [InterfaceState.new, h]
  · intro so h1 h2
    simp [InterfaceState.new, h1, h2]
  · intro so sd sm h1 h2 h3 h4
    simp [InterfaceState.new, h1, h2, h3, h4]
  · intro so sd sm ss mv h1 h2 h3 h4 h5 h6
    simp [InterfaceState.new, h1, h2, h3, h4, h5, h6]
  · intro e he cfg
    simp [runCheck, he]
  · constructor
    · rintro ⟨st, hst, hpres⟩
      cases ho : env.operstate_raw with
      | none =>
        simp [InterfaceState.new, ho] at hst
        simp [← hst] at hpres
      | some so =>
        cases hdu : env.duplex_raw with
        | none =>
          simp [InterfaceState.new, ho, hdu] at hst
          simp [← hst] at hpres
        | some sd =>
          cases hmt : env.mtu_raw with
          | none =>
            simp [InterfaceState.new, ho, hdu, hmt] at hst
            simp [← hst] at hpres
          | some sm =>
            cases hpm : parseI32 (strTrim (strTrim sm)) with
            | none =>
              simp [InterfaceState.new, ho, hdu, hmt, hpm] at hst
            | some mv =>
              cases hsp : env.speed_raw with
              | none =>
                simp [InterfaceState.new, ho, hdu, hmt, hpm, hsp] at hst
                simp [← hst] at hpres
              | some ss =>
                cases hps : parseI32 (strTrim ss) with
                | none =>
                  simp [InterfaceState.new, ho, hdu, hmt, hpm, hsp, hps] at hst
                | some sv =>
                  exact ⟨so, sd, sm, ss, rfl, rfl, rfl, by simp [hpm], rfl, by simp [hps]⟩
    · rintro ⟨so, sd, sm, ss, h1, h2, h3, h4, h5, h6⟩
      rw [Option.isSome_iff_exists] at h4 h6
      obtain ⟨mv, hmv⟩ := h4
      obtain ⟨sv, hsv⟩ := h6
      refine ⟨⟨true, sv, mv, strTrim so, strTrim sd, env.ips⟩, ?_, rfl⟩
      simp [InterfaceState.new, h1, h2, h3, h5, hmv, hsv]

/-- Witness for C9: a readable but non-numeric MTU attribute is a fatal
error and the process-level result is `UNKNOWN`. -/
theorem fact_reader_error_taxonomy_witness :
    InterfaceState.new ⟨some "up", some "full", some "garbage", some "1000", []⟩ =
      Except.error "Can\x27t convert reported MTU to an integer" ∧
    runCheck ⟨"eth0", 0, 1000, "full", false, 0⟩
      ⟨some "up", some "full", some "garbage", some "1000", []⟩ = (none, 3) := by
  have h := fact_reader_error_taxonomy ⟨some "up", some "full", some "garbage", some "1000", []⟩
  have he := h.2.2.1 "up" "full" "garbage" rfl rfl rfl (by decide)
  exact ⟨he, h.2.2.2.2.1 _ he ⟨"eth0", 0, 1000, "full", false, 0⟩⟩

